import Mathlib

/-!
# Pyramids simulation core — shallow embedding

A shallow embedding of the simulation core of the Pyramids repository
(`src/core/Sphere.js`, `src/core/GameState.js`, and the configuration
constants of `src/main.js`), together with theorems settling the frozen
claims about it.  For `Sphere` the embedding follows the repository's
current version of `Sphere.js` (the one defining
`getInterpolatedColor`, which both `SceneManager` versions call every
frame); in particular its `toJSON` serializes `attackingOwner` and its
`fromJSON` restores it via `data.attackingOwner || null`.

Modelling conventions:
* JavaScript numbers are modelled as exact rationals (`ℚ`); integer
  counters as `ℕ`.
* The JS `Map` (`GameState.spheres`, insertion ordered, unique keys) is
  modelled as a `List Sphere`; `Map.get` is first-match lookup,
  `Map.set` replaces the first entry with the same id or appends, and
  in-place mutation of a looked-up sphere object is replacement of the
  first entry with that id.
* `getActiveConnections` in the source carries the Euclidean distance
  `d = √(Δx² + Δy² + Δz²)` of each connection, and the transfer code
  uses only `d * d`.  Since `√` leaves `ℚ`, the embedded connection
  record carries the squared distance `distSq = d * d = Δx² + Δy² + Δz²`
  directly, which is the exact value the source's arithmetic consumes.
* `undefined`/`null` object fields become `none`.
-/

namespace Pyramids

/-- Game configuration constant `CONFIG.BASE_ENERGY_RATE` (percent per
second), from `src/main.js`. -/
def BASE_ENERGY_RATE : ℚ := 15

/-- Game configuration constant `CONFIG.ATTENUATION_FACTOR` (distance
penalty), from `src/main.js`. -/
def ATTENUATION_FACTOR : ℚ := 1 / 100

/-- A `THREE.Vector3` position as used by the core (plain x/y/z record). -/
structure Vec3 where
  x : ℚ
  y : ℚ
  z : ℚ
deriving DecidableEq, Repr

/-- Squared Euclidean distance between two positions: the exact value of
`distance * distance` where `distance = a.distanceTo(b)`. -/
def Vec3.distSq (a b : Vec3) : ℚ :=
  (a.x - b.x) * (a.x - b.x) + (a.y - b.y) * (a.y - b.y) + (a.z - b.z) * (a.z - b.z)

/-- The `GameState.stats` counters. -/
structure Stats where
  spheresCaptured : ℕ
  connectionsCreated : ℕ
  energyTransferred : ℚ
deriving DecidableEq, Repr

/-- The `Sphere` entity (current `Sphere.js`).  `owner` ranges over the
strings `"player"`, `"enemy"`, `"neutral"`; `attackingOwner` is the
capture state tracking who is currently attacking this sphere
(initialized to `null`, i.e. `none`, by the constructor).  The renderer
back-reference `mesh` is presentation-only and omitted. -/
structure Sphere where
  id : String
  position : Vec3
  owner : String
  energy : ℚ
  connectedTo : Option String
  lastTransferTime : ℚ
  attackingOwner : Option String
deriving DecidableEq, Repr

/-- The `Sphere` constructor: `new Sphere(id, position, owner, energy)`. -/
def Sphere.mk' (id : String) (position : Vec3) (owner : String) (energy : ℚ) : Sphere :=
  { id := id, position := position, owner := owner, energy := energy,
    connectedTo := none, lastTransferTime := 0, attackingOwner := none }

/-- Embedding of `Sphere.connect(targetId)`: unconditionally overwrite `connectedTo`
and timestamp the change (`lastTransferTime = performance.now()`, the
wall-clock instant passed in as `now`). -/
def Sphere.connect (s : Sphere) (targetId : Option String) (now : ℚ) : Sphere :=
  { s with connectedTo := targetId, lastTransferTime := now }

/-- Embedding of `Sphere.disconnect()`. -/
def Sphere.disconnect (s : Sphere) : Sphere :=
  { s with connectedTo := none }

/-- Embedding of `Sphere.isConnected()`. -/
def Sphere.isConnected (s : Sphere) : Bool :=
  s.connectedTo.isSome

/-- Embedding of `Sphere.transferEnergy(amount)`: clamp `energy + amount` to [0, 100]
and report whether the clamped value differs from the prior one. -/
def Sphere.transferEnergy (s : Sphere) (amount : ℚ) : Bool × Sphere :=
  let newEnergy := max 0 (min 100 (s.energy + amount))
  (decide (newEnergy ≠ s.energy), { s with energy := newEnergy })

/-- The `Sphere.toJSON()` output shape: id, position{x,y,z}, owner, energy,
connectedTo, attackingOwner. -/
structure SphereJSON where
  id : String
  position : Vec3
  owner : String
  energy : ℚ
  connectedTo : Option String
  attackingOwner : Option String
deriving DecidableEq, Repr

/-- Embedding of `Sphere.toJSON()`. -/
def Sphere.toJSON (s : Sphere) : SphereJSON :=
  { id := s.id, position := s.position, owner := s.owner,
    energy := s.energy, connectedTo := s.connectedTo,
    attackingOwner := s.attackingOwner }

/-- Embedding of `Sphere.fromJSON(data)`: rebuild via the constructor, then restore
`connectedTo` and `attackingOwner`.  The source restores the latter as
`data.attackingOwner || null`: `||` coalesces every falsy value to
`null`, so besides `null`/`undefined` (both `none` here) it also maps
the empty string — a tag the simulation never produces — to `null`;
the embedding spells that guard out.  `lastTransferTime` is not part of
the wire format and keeps the constructor's 0. -/
def Sphere.fromJSON (d : SphereJSON) : Sphere :=
  { (Sphere.mk' d.id d.position d.owner d.energy) with
    connectedTo := d.connectedTo,
    attackingOwner := if d.attackingOwner = some "" then none else d.attackingOwner }

/-- An element of the list returned by `getActiveConnections`: the ids of
the source and target sphere objects, and the squared distance between
their positions (see the header on the √-free representation). -/
structure Connection where
  sourceId : String
  targetId : String
  distSq : ℚ
deriving DecidableEq, Repr

/-- The `GameState` aggregate (`src/core/GameState.js`). -/
structure GameState where
  spheres : List Sphere
  selectedSphereId : Option String
  tick : ℕ
  gameTime : ℚ
  gameMode : String
  stats : Stats
deriving DecidableEq, Repr

/-- Embedding of the constructor `new GameState()`. -/
def GameState.init : GameState :=
  { spheres := [], selectedSphereId := none, tick := 0, gameTime := 0,
    gameMode := "puzzle",
    stats := { spheresCaptured := 0, connectionsCreated := 0, energyTransferred := 0 } }

/-- The `Map.set` operation on the sphere list: replace the first entry with the same
id, or append if the id is fresh. -/
def addSphereList : List Sphere → Sphere → List Sphere
  | [], s => [s]
  | t :: ts, s => if t.id = s.id then s :: ts else t :: addSphereList ts s

/-- In-place mutation of the sphere object stored under id `i` (unique
`Map` key, hence the first match): replace it by `v`. -/
def replaceById : List Sphere → String → Sphere → List Sphere
  | [], _, _ => []
  | t :: ts, i, v => if t.id = i then v :: ts else t :: replaceById ts i v

/-- Embedding of `GameState.addSphere(sphere)` (`Map.set`). -/
def GameState.addSphere (st : GameState) (s : Sphere) : GameState :=
  { st with spheres := addSphereList st.spheres s }

/-- Embedding of `GameState.getSphere(sphereId)` (`Map.get`, or null). -/
def GameState.getSphere (st : GameState) (sphereId : String) : Option Sphere :=
  st.spheres.find? (fun s => s.id == sphereId)

/-- Embedding of `GameState.removeSphere(sphereId)`: clear every `connectedTo`
pointing at the removed id, then delete the entry. -/
def GameState.removeSphere (st : GameState) (sphereId : String) : GameState :=
  let cleared := st.spheres.map (fun s =>
    if s.connectedTo = some sphereId then s.disconnect else s)
  { st with spheres := cleared.filter (fun s => ¬ s.id = sphereId) }

/-- Embedding of `GameState.createConnection(sourceId, targetId)`: fail (returning
`false`, no state change) when either id does not resolve or the ids
coincide; otherwise connect the source object to the target id and
count the connection. -/
def GameState.createConnection (st : GameState) (sourceId targetId : String) (now : ℚ) :
    Bool × GameState :=
  match st.getSphere sourceId, st.getSphere targetId with
  | some source, some _ =>
    if sourceId = targetId then (false, st)
    else
      (true,
       { st with
         spheres := replaceById st.spheres sourceId (source.connect (some targetId) now),
         stats := { st.stats with connectionsCreated := st.stats.connectionsCreated + 1 } })
  | _, _ => (false, st)

/-- Embedding of `GameState.disconnectSphere(sphereId)`. -/
def GameState.disconnectSphere (st : GameState) (sphereId : String) : GameState :=
  match st.getSphere sphereId with
  | some s => { st with spheres := replaceById st.spheres sphereId s.disconnect }
  | none => st

/-- Embedding of `GameState.isPlayerSphere(sphereId)`. -/
def GameState.isPlayerSphere (st : GameState) (sphereId : String) : Bool :=
  match st.getSphere sphereId with
  | some s => s.owner == "player"
  | none => false

/-- Embedding of `GameState.selectSphere(sphereId)`: refuse (and keep the prior
selection) unless the sphere is player-owned. -/
def GameState.selectSphere (st : GameState) (sphereId : String) : GameState :=
  if st.isPlayerSphere sphereId then { st with selectedSphereId := some sphereId }
  else st

/-- Embedding of `GameState.deselectSphere()`. -/
def GameState.deselectSphere (st : GameState) : GameState :=
  { st with selectedSphereId := none }

/-- Embedding of `GameState.getPlayerSpheres()`. -/
def GameState.getPlayerSpheres (st : GameState) : List Sphere :=
  st.spheres.filter (fun s => s.owner == "player")

/-- The body of `GameState.getActiveConnections()` over a sphere list: one entry per
sphere whose `connectedTo` is set and resolves to a live target. -/
def activeConnections (l : List Sphere) : List Connection :=
  l.filterMap (fun source =>
    match source.connectedTo with
    | some tid =>
      match l.find? (fun s => s.id == tid) with
      | some target => some ⟨source.id, tid, source.position.distSq target.position⟩
      | none => none
    | none => none)

/-- Embedding of `GameState.getActiveConnections()`. -/
def GameState.getActiveConnections (st : GameState) : List Connection :=
  activeConnections st.spheres

/-- The effective transfer rate
`CONFIG.BASE_ENERGY_RATE / (1 + distance * distance * CONFIG.ATTENUATION_FACTOR)`
as a function of the squared distance. -/
def effectiveRate (distSq : ℚ) : ℚ :=
  BASE_ENERGY_RATE / (1 + distSq * ATTENUATION_FACTOR)

/-- The quantity `energyAmount = effectiveRate * deltaTime` as the source computes it
from a connection's distance. -/
def energyAmount (distance deltaTime : ℚ) : ℚ :=
  effectiveRate (distance * distance) * deltaTime

/-- The body of the `connections.forEach` loop of
`GameState.processEnergyTransfer` once the source and target sphere
objects are in hand, producing the new sphere list and stats.  A
neutral source produces nothing; a same-owner target is held at 100; a
neutral target gains `energyAmount` and is captured on reaching 100; an
enemy-owned target loses `energyAmount` and reverts to neutral on
reaching 0.  In-place mutation of the target object is `replaceById` at
its id. -/
def stepCore (deltaTime : ℚ) (st : GameState) (conn : Connection) (source target : Sphere) :
    List Sphere × Stats :=
  if source.owner = "neutral" then (st.spheres, st.stats)
  else if source.owner = target.owner then
    (replaceById st.spheres conn.targetId
      { target with energy := 100, attackingOwner := none }, st.stats)
  else if target.owner = "neutral" then
    if 100 ≤ target.energy + effectiveRate conn.distSq * deltaTime then
      (replaceById st.spheres conn.targetId
        { target with energy := 100, owner := source.owner, attackingOwner := none },
       { st.stats with
         spheresCaptured :=
           st.stats.spheresCaptured + (if source.owner = "player" then 1 else 0),
         energyTransferred :=
           st.stats.energyTransferred + effectiveRate conn.distSq * deltaTime })
    else
      (replaceById st.spheres conn.targetId
        { target with energy := target.energy + effectiveRate conn.distSq * deltaTime,
                      attackingOwner := some source.owner },
       { st.stats with
         energyTransferred :=
           st.stats.energyTransferred + effectiveRate conn.distSq * deltaTime })
  else
    if target.energy - effectiveRate conn.distSq * deltaTime ≤ 0 then
      (replaceById st.spheres conn.targetId
        { target with energy := 0, owner := "neutral", attackingOwner := none },
       { st.stats with
         energyTransferred :=
           st.stats.energyTransferred + effectiveRate conn.distSq * deltaTime })
    else
      (replaceById st.spheres conn.targetId
        { target with energy := target.energy - effectiveRate conn.distSq * deltaTime,
                      attackingOwner := some source.owner },
       { st.stats with
         energyTransferred :=
           st.stats.energyTransferred + effectiveRate conn.distSq * deltaTime })

/-- The body of the `connections.forEach` loop: fetch the source and
target sphere objects held by the connection (the JS closure holds
references to the very objects stored in the map, whose keys are
unique) and apply `stepCore`. -/
def stepPair (deltaTime : ℚ) (st : GameState) (conn : Connection) : List Sphere × Stats :=
  match st.getSphere conn.sourceId, st.getSphere conn.targetId with
  | some source, some target => stepCore deltaTime st conn source target
  | _, _ => (st.spheres, st.stats)

/-- One iteration of the `connections.forEach` loop, as a state
transformer. -/
def transferStep (deltaTime : ℚ) (st : GameState) (conn : Connection) : GameState :=
  { st with spheres := (stepPair deltaTime st conn).1, stats := (stepPair deltaTime st conn).2 }

/-- Embedding of `GameState.processEnergyTransfer(deltaTime)`: snapshot the active
connections, then process them in order. -/
def GameState.processEnergyTransfer (st : GameState) (deltaTime : ℚ) : GameState :=
  st.getActiveConnections.foldl (transferStep deltaTime) st

/-- Embedding of `GameState.update(deltaTime)`: accumulate time, bump the tick, then
process energy transfer. -/
def GameState.update (st : GameState) (deltaTime : ℚ) : GameState :=
  GameState.processEnergyTransfer
    { st with gameTime := st.gameTime + deltaTime, tick := st.tick + 1 } deltaTime

/-- A sequence of `update` calls. -/
def GameState.updates (st : GameState) (deltaTimes : List ℚ) : GameState :=
  deltaTimes.foldl GameState.update st

/-- Embedding of `GameState.checkVictory()`: some sphere exists and every sphere is
player-owned. -/
def GameState.checkVictory (st : GameState) : Bool :=
  decide (0 < st.spheres.length) && decide (st.getPlayerSpheres.length = st.spheres.length)

/-- Embedding of `GameState.checkDefeat()`: always false in puzzle mode, and the
future-mode branch also returns false. -/
def GameState.checkDefeat (_st : GameState) : Bool :=
  false

/-- The `GameState.toJSON()` output shape. -/
structure GameJSON where
  spheres : List SphereJSON
  selectedSphereId : Option String
  tick : ℕ
  gameTime : ℚ
  gameMode : String
  stats : Stats
deriving DecidableEq, Repr

/-- Embedding of `GameState.toJSON()`. -/
def GameState.toJSON (st : GameState) : GameJSON :=
  { spheres := st.spheres.map Sphere.toJSON,
    selectedSphereId := st.selectedSphereId,
    tick := st.tick, gameTime := st.gameTime, gameMode := st.gameMode,
    stats := st.stats }

/-- Embedding of `GameState.fromJSON(data)`: start from `new GameState()`, add each
restored sphere, then restore the metadata fields. -/
def GameState.fromJSON (d : GameJSON) : GameState :=
  let st := d.spheres.foldl (fun st sd => st.addSphere (Sphere.fromJSON sd)) GameState.init
  { st with selectedSphereId := d.selectedSphereId, tick := d.tick,
            gameTime := d.gameTime, gameMode := d.gameMode, stats := d.stats }

/-- All sphere energies lie in the simulation's [0, 100] domain. -/
def energyInBounds (st : GameState) : Prop :=
  ∀ s ∈ st.spheres, 0 ≤ s.energy ∧ s.energy ≤ 100

instance energyInBoundsDecidable (st : GameState) : Decidable (energyInBounds st) :=
  inferInstanceAs (Decidable (∀ s ∈ st.spheres, 0 ≤ s.energy ∧ s.energy ≤ 100))

/-! ## Concrete states used as evaluation inputs -/

/-- A player sphere at the origin, full energy, connected to `"b"`. -/
def spA : Sphere :=
  { id := "a", position := ⟨0, 0, 0⟩, owner := "player", energy := 100,
    connectedTo := some "b", lastTransferTime := 0, attackingOwner := none }

/-- A neutral sphere at distance 4 from the origin, no energy. -/
def spB : Sphere :=
  { id := "b", position := ⟨4, 0, 0⟩, owner := "neutral", energy := 0,
    connectedTo := none, lastTransferTime := 0, attackingOwner := none }

/-- The two-sphere scenario of the spec's example: `a → b`. -/
def twoSphereState : GameState :=
  { spheres := [spA, spB], selectedSphereId := none, tick := 0, gameTime := 0,
    gameMode := "puzzle",
    stats := { spheresCaptured := 0, connectionsCreated := 0, energyTransferred := 0 } }

/-- A neutral sphere currently being contested by the enemy
(`attackingOwner` set by a previous `update`). -/
def contestedSphere : Sphere :=
  { id := "c", position := ⟨1, 2, 0⟩, owner := "neutral", energy := 40,
    connectedTo := none, lastTransferTime := 0, attackingOwner := some "enemy" }

/-- A state containing a contested sphere. -/
def contestedState : GameState :=
  { spheres := [contestedSphere], selectedSphereId := none, tick := 3, gameTime := 2,
    gameMode := "puzzle",
    stats := { spheresCaptured := 0, connectionsCreated := 1, energyTransferred := 40 } }

/-- A lone player-owned sphere. -/
def loneSphere : Sphere :=
  { id := "a", position := ⟨0, 0, 0⟩, owner := "player", energy := 100,
    connectedTo := none, lastTransferTime := 0, attackingOwner := none }

/-- A state with just the lone player sphere. -/
def loneState : GameState :=
  { spheres := [loneSphere], selectedSphereId := none, tick := 0, gameTime := 0,
    gameMode := "puzzle",
    stats := { spheresCaptured := 0, connectionsCreated := 0, energyTransferred := 0 } }

/-- An enemy-owned sphere with low energy, close to the origin. -/
def spE : Sphere :=
  { id := "e", position := ⟨1, 0, 0⟩, owner := "enemy", energy := 5,
    connectedTo := none, lastTransferTime := 0, attackingOwner := none }

/-- A state in which the player sphere can attack the enemy sphere. -/
def attackState : GameState :=
  { spheres := [spA, spE], selectedSphereId := none, tick := 0, gameTime := 0,
    gameMode := "puzzle",
    stats := { spheresCaptured := 0, connectionsCreated := 0, energyTransferred := 0 } }

/-- The state `update(-1)` builds before processing energy transfer on
`twoSphereState` (time accumulated, tick bumped). -/
def bumpedState : GameState :=
  { twoSphereState with gameTime := twoSphereState.gameTime + (-1),
                        tick := twoSphereState.tick + 1 }

/-! ## Basic lemmas about the embedding -/

theorem getSphere_mem {st : GameState} {i : String} {s : Sphere}
    (h : st.getSphere i = some s) : s ∈ st.spheres :=
  List.mem_of_find?_eq_some h

theorem getSphere_id {st : GameState} {i : String} {s : Sphere}
    (h : st.getSphere i = some s) : s.id = i := by
  have := List.find?_some h
  simpa using this

theorem find?_replaceById_self {l : List Sphere} {i : String} {t : Sphere} (v : Sphere)
    (hf : l.find? (fun s => s.id == i) = some t) (hv : v.id = i) :
    (replaceById l i v).find? (fun s => s.id == i) = some v := by
  induction l with
  | nil => simp [List.find?] at hf
  | cons a as ih =>
    by_cases ha : a.id = i
    · simp [replaceById, ha, List.find?, hv]
    · rw [List.find?_cons_of_neg _ (by simpa using ha)] at hf
      rw [replaceById, if_neg ha, List.find?_cons_of_neg _ (by simpa using ha)]
      exact ih hf

theorem find?_replaceById_ne {l : List Sphere} {i j : String} (v : Sphere)
    (hne : i ≠ j) (hv : v.id = i) :
    (replaceById l i v).find? (fun s => s.id == j) = l.find? (fun s => s.id == j) := by
  induction l with
  | nil => simp [replaceById]
  | cons a as ih =>
    by_cases ha : a.id = i
    · have haj : ¬ a.id = j := by rw [ha]; exact hne
      rw [replaceById, if_pos ha, List.find?_cons_of_neg _ (by simpa using hv ▸ hne),
        List.find?_cons_of_neg _ (by simpa using haj)]
    · rw [replaceById, if_neg ha]
      by_cases haj : a.id = j
      · rw [List.find?_cons_of_pos _ (by simpa using haj),
          List.find?_cons_of_pos _ (by simpa using haj)]
      · rw [List.find?_cons_of_neg _ (by simpa using haj),
          List.find?_cons_of_neg _ (by simpa using haj)]
        exact ih

theorem mem_replaceById {l : List Sphere} {i : String} {v x : Sphere}
    (h : x ∈ replaceById l i v) : x ∈ l ∨ x = v := by
  induction l with
  | nil => simp [replaceById] at h
  | cons a as ih =>
    rw [replaceById] at h
    by_cases ha : a.id = i
    · rw [if_pos ha] at h
      rcases List.mem_cons.mp h with h | h
      · right; exact h
      · left; exact List.mem_cons_of_mem _ h
    · rw [if_neg ha] at h
      rcases List.mem_cons.mp h with h | h
      · left; exact h ▸ List.mem_cons_self _ _
      · rcases ih h with h | h
        · left; exact List.mem_cons_of_mem _ h
        · right; exact h

theorem distSq_nonneg (a b : Vec3) : 0 ≤ a.distSq b := by
  unfold Vec3.distSq
  have h1 := mul_self_nonneg (a.x - b.x)
  have h2 := mul_self_nonneg (a.y - b.y)
  have h3 := mul_self_nonneg (a.z - b.z)
  linarith

theorem activeConnections_distSq_nonneg {l : List Sphere} {c : Connection}
    (h : c ∈ activeConnections l) : 0 ≤ c.distSq := by
  unfold activeConnections at h
  rw [List.mem_filterMap] at h
  obtain ⟨s, _, hs⟩ := h
  split at hs
  · split at hs
    · rw [Option.some_inj] at hs
      rw [← hs]
      exact distSq_nonneg _ _
    · simp at hs
  · simp at hs

theorem effectiveRate_pos {q : ℚ} (hq : 0 ≤ q) : 0 < effectiveRate q := by
  unfold effectiveRate BASE_ENERGY_RATE ATTENUATION_FACTOR
  have hden : (0:ℚ) < 1 + q * (1 / 100) := by nlinarith
  positivity

theorem transferStep_gameTime (dt : ℚ) (st : GameState) (c : Connection) :
    (transferStep dt st c).gameTime = st.gameTime := rfl

theorem transferStep_tick (dt : ℚ) (st : GameState) (c : Connection) :
    (transferStep dt st c).tick = st.tick := rfl

theorem transferStep_selected (dt : ℚ) (st : GameState) (c : Connection) :
    (transferStep dt st c).selectedSphereId = st.selectedSphereId := rfl

theorem foldl_transferStep_gameTime (dt : ℚ) (cs : List Connection) (st : GameState) :
    (cs.foldl (transferStep dt) st).gameTime = st.gameTime := by
  induction cs generalizing st with
  | nil => rfl
  | cons c cs ih => rw [List.foldl_cons, ih, transferStep_gameTime]

theorem foldl_transferStep_tick (dt : ℚ) (cs : List Connection) (st : GameState) :
    (cs.foldl (transferStep dt) st).tick = st.tick := by
  induction cs generalizing st with
  | nil => rfl
  | cons c cs ih => rw [List.foldl_cons, ih, transferStep_tick]

theorem update_gameTime (st : GameState) (dt : ℚ) :
    (st.update dt).gameTime = st.gameTime + dt := by
  unfold GameState.update GameState.processEnergyTransfer
  rw [foldl_transferStep_gameTime]

theorem update_tick (st : GameState) (dt : ℚ) :
    (st.update dt).tick = st.tick + 1 := by
  unfold GameState.update GameState.processEnergyTransfer
  rw [foldl_transferStep_tick]

theorem stepPair_some {dt : ℚ} {st : GameState} {c : Connection} {source target : Sphere}
    (hsrc : st.getSphere c.sourceId = some source)
    (htgt : st.getSphere c.targetId = some target) :
    stepPair dt st c = stepCore dt st c source target := by
  unfold stepPair
  rw [hsrc, htgt]

theorem transferStep_eq {dt : ℚ} {st : GameState} {c : Connection} {source target : Sphere}
    (hsrc : st.getSphere c.sourceId = some source)
    (htgt : st.getSphere c.targetId = some target) :
    transferStep dt st c =
      { st with spheres := (stepCore dt st c source target).1,
                stats := (stepCore dt st c source target).2 } := by
  unfold transferStep
  rw [stepPair_some hsrc htgt]

theorem stepCore_capture {dt : ℚ} {st : GameState} {c : Connection} {source target : Sphere}
    (h1 : ¬ source.owner = "neutral") (h2 : ¬ source.owner = target.owner)
    (h3 : target.owner = "neutral")
    (h4 : 100 ≤ target.energy + effectiveRate c.distSq * dt) :
    stepCore dt st c source target =
      (replaceById st.spheres c.targetId
        { target with energy := 100, owner := source.owner, attackingOwner := none },
       { st.stats with
         spheresCaptured :=
           st.stats.spheresCaptured + (if source.owner = "player" then 1 else 0),
         energyTransferred :=
           st.stats.energyTransferred + effectiveRate c.distSq * dt }) := by
  unfold stepCore
  rw [if_neg h1, if_neg h2, if_pos h3, if_pos h4]

theorem stepCore_progress {dt : ℚ} {st : GameState} {c : Connection} {source target : Sphere}
    (h1 : ¬ source.owner = "neutral") (h2 : ¬ source.owner = target.owner)
    (h3 : target.owner = "neutral")
    (h4 : ¬ 100 ≤ target.energy + effectiveRate c.distSq * dt) :
    stepCore dt st c source target =
      (replaceById st.spheres c.targetId
        { target with energy := target.energy + effectiveRate c.distSq * dt,
                      attackingOwner := some source.owner },
       { st.stats with
         energyTransferred :=
           st.stats.energyTransferred + effectiveRate c.distSq * dt }) := by
  unfold stepCore
  rw [if_neg h1, if_neg h2, if_pos h3, if_neg h4]

theorem stepCore_revert {dt : ℚ} {st : GameState} {c : Connection} {source target : Sphere}
    (h1 : ¬ source.owner = "neutral") (h2 : ¬ source.owner = target.owner)
    (h3 : ¬ target.owner = "neutral")
    (h4 : target.energy - effectiveRate c.distSq * dt ≤ 0) :
    stepCore dt st c source target =
      (replaceById st.spheres c.targetId
        { target with energy := 0, owner := "neutral", attackingOwner := none },
       { st.stats with
         energyTransferred :=
           st.stats.energyTransferred + effectiveRate c.distSq * dt }) := by
  unfold stepCore
  rw [if_neg h1, if_neg h2, if_neg h3, if_pos h4]

theorem stepCore_energyInBounds {dt : ℚ} {st : GameState} {c : Connection}
    {source target : Sphere} (hdt : 0 ≤ dt) (hc : 0 ≤ c.distSq)
    (htgt : st.getSphere c.targetId = some target) (h : energyInBounds st) :
    ∀ s ∈ (stepCore dt st c source target).1, 0 ≤ s.energy ∧ s.energy ≤ 100 := by
  intro s hs
  have hamt : 0 ≤ effectiveRate c.distSq * dt := mul_nonneg (effectiveRate_pos hc).le hdt
  have htb := h target (getSphere_mem htgt)
  unfold stepCore at hs
  by_cases h1 : source.owner = "neutral"
  · rw [if_pos h1] at hs
    exact h s hs
  · rw [if_neg h1] at hs
    by_cases h2 : source.owner = target.owner
    · rw [if_pos h2] at hs
      rcases mem_replaceById hs with hm | rfl
      · exact h s hm
      · exact ⟨by norm_num, by norm_num⟩
    · rw [if_neg h2] at hs
      by_cases h3 : target.owner = "neutral"
      · rw [if_pos h3] at hs
        by_cases h4 : 100 ≤ target.energy + effectiveRate c.distSq * dt
        · rw [if_pos h4] at hs
          rcases mem_replaceById hs with hm | rfl
          · exact h s hm
          · exact ⟨by norm_num, by norm_num⟩
        · rw [if_neg h4] at hs
          rcases mem_replaceById hs with hm | rfl
          · exact h s hm
          · constructor
            · show 0 ≤ target.energy + effectiveRate c.distSq * dt
              linarith [htb.1]
            · show target.energy + effectiveRate c.distSq * dt ≤ 100
              push_neg at h4
              linarith
      · rw [if_neg h3] at hs
        by_cases h4 : target.energy - effectiveRate c.distSq * dt ≤ 0
        · rw [if_pos h4] at hs
          rcases mem_replaceById hs with hm | rfl
          · exact h s hm
          · exact ⟨by norm_num, by norm_num⟩
        · rw [if_neg h4] at hs
          rcases mem_replaceById hs with hm | rfl
          · exact h s hm
          · constructor
            · show 0 ≤ target.energy - effectiveRate c.distSq * dt
              push_neg at h4
              linarith
            · show target.energy - effectiveRate c.distSq * dt ≤ 100
              linarith [htb.2]

theorem transferStep_energyInBounds {dt : ℚ} {st : GameState} {c : Connection}
    (hdt : 0 ≤ dt) (hc : 0 ≤ c.distSq) (h : energyInBounds st) :
    energyInBounds (transferStep dt st c) := by
  intro s hs
  have hs' : s ∈ (stepPair dt st c).1 := hs
  cases hsrc : st.getSphere c.sourceId with
  | none =>
    unfold stepPair at hs'
    rw [hsrc] at hs'
    exact h s hs'
  | some source =>
    cases htgt : st.getSphere c.targetId with
    | none =>
      unfold stepPair at hs'
      rw [hsrc, htgt] at hs'
      exact h s hs'
    | some target =>
      rw [stepPair_some hsrc htgt] at hs'
      exact stepCore_energyInBounds hdt hc htgt h s hs'

theorem foldl_transferStep_energyInBounds {dt : ℚ} (hdt : 0 ≤ dt) (cs : List Connection)
    (hcs : ∀ c ∈ cs, 0 ≤ c.distSq) {st : GameState} (h : energyInBounds st) :
    energyInBounds (cs.foldl (transferStep dt) st) := by
  induction cs generalizing st with
  | nil => exact h
  | cons c cs ih =>
    rw [List.foldl_cons]
    exact ih (fun x hx => hcs x (List.mem_cons_of_mem _ hx))
      (transferStep_energyInBounds hdt (hcs c (List.mem_cons_self _ _)) h)

theorem update_energyInBounds {st : GameState} {dt : ℚ} (hdt : 0 ≤ dt)
    (h : energyInBounds st) : energyInBounds (st.update dt) := by
  unfold GameState.update GameState.processEnergyTransfer
  exact foldl_transferStep_energyInBounds hdt _
    (fun c hc => activeConnections_distSq_nonneg hc) h

/-! ## Claim theorems -/

/-- C2: for every GameState whose spheres all start with energy in
[0, 100], after any sequence of `update(deltaTime)` calls with
non-negative deltaTime, every sphere's energy satisfies
`0 ≤ energy ≤ 100`. -/
theorem C2_energy_bounds (st : GameState) (dts : List ℚ)
    (h : energyInBounds st) (hdts : ∀ dt ∈ dts, 0 ≤ dt) :
    energyInBounds (st.updates dts) := by
  revert h hdts
  induction dts generalizing st with
  | nil => intro h _; exact h
  | cons dt rest ih =>
    intro h hdts
    exact ih (st.update dt)
      (update_energyInBounds (hdts dt (List.mem_cons_self _ _)) h)
      (fun x hx => hdts x (List.mem_cons_of_mem _ hx))

/-- Witness for C2 at a concrete two-sphere state and a concrete
sequence of deltaTimes. -/
theorem C2_energy_bounds_witness :
    energyInBounds twoSphereState ∧ (∀ dt ∈ [(1:ℚ), 2, 0], 0 ≤ dt) ∧
      energyInBounds (twoSphereState.updates [1, 2, 0]) :=
  ⟨by decide, by decide,
    C2_energy_bounds twoSphereState [1, 2, 0] (by decide) (by decide)⟩

/-- C8: with `BASE_ENERGY_RATE = 15.0` and `ATTENUATION_FACTOR = 0.01`,
for any fixed deltaTime > 0 the per-tick
`energyAmount = (BASE_ENERGY_RATE / (1 + distance² × ATTENUATION_FACTOR)) × deltaTime`
is a strictly decreasing function of distance over distance ≥ 0, and is
strictly positive for every (finite) distance. -/
theorem C8_attenuation_monotone (d1 d2 d dt : ℚ)
    (h1 : 0 ≤ d1) (h12 : d1 < d2) (hdt : 0 < dt) :
    energyAmount d2 dt < energyAmount d1 dt ∧ 0 < energyAmount d dt := by
  have hpos : ∀ x : ℚ, (0:ℚ) < 1 + x * x * (1/100) := fun x => by
    nlinarith [mul_self_nonneg x]
  constructor
  · unfold energyAmount effectiveRate BASE_ENERGY_RATE ATTENUATION_FACTOR
    apply mul_lt_mul_of_pos_right _ hdt
    exact div_lt_div_of_pos_left (by norm_num) (hpos d1) (by nlinarith)
  · unfold energyAmount effectiveRate BASE_ENERGY_RATE ATTENUATION_FACTOR
    exact mul_pos (div_pos (by norm_num) (hpos d)) hdt

/-- Witness for C8 at distances 1 < 2 (and 3 for positivity), dt = 1. -/
theorem C8_attenuation_witness :
    (0:ℚ) ≤ 1 ∧ (1:ℚ) < 2 ∧ (0:ℚ) < 1 ∧
      (energyAmount 2 1 < energyAmount 1 1 ∧ 0 < energyAmount 3 1) :=
  ⟨by norm_num, by norm_num, by norm_num,
    C8_attenuation_monotone 1 2 3 1 (by norm_num) (by norm_num) (by norm_num)⟩

/-- C9: `checkVictory()` returns true iff the sphere count is positive
and every sphere's owner is `player`; in particular it is false for an
empty simulation (where the count is 0). -/
theorem C9_victory_exact (st : GameState) :
    st.checkVictory = true ↔ 0 < st.spheres.length ∧ ∀ s ∈ st.spheres, s.owner = "player" := by
  unfold GameState.checkVictory GameState.getPlayerSpheres
  rw [Bool.and_eq_true, decide_eq_true_eq, decide_eq_true_eq,
    List.filter_length_eq_length]
  constructor
  · rintro ⟨hl, hp⟩
    exact ⟨hl, fun s hs => by simpa using hp s hs⟩
  · rintro ⟨hl, hp⟩
    exact ⟨hl, fun s hs => by simpa using hp s hs⟩

/-- C6 counterexample: `update(-1)` on a concrete state is silently
tolerated — it returns a normal successor state (time decreased, tick
incremented) instead of failing, and even pushes the neutral target's
energy below the [0, 100] domain. -/
theorem C6_negative_dt_cex :
    (twoSphereState.update (-1)).gameTime = -1 ∧
    (twoSphereState.update (-1)).tick = 1 ∧
    ((twoSphereState.update (-1)).getSphere "b").map Sphere.energy = some (-(375/29)) := by
  have hconn : activeConnections twoSphereState.spheres = [⟨"a", "b", 16⟩] := by
    simp [activeConnections, twoSphereState, spA, spB, List.find?, Vec3.distSq]
    norm_num
  have hsrcB : bumpedState.getSphere "a" = some spA := by decide
  have htgtB : bumpedState.getSphere "b" = some spB := by decide
  have h0 : twoSphereState.update (-1) = transferStep (-1) bumpedState ⟨"a", "b", 16⟩ := by
    show (GameState.getActiveConnections bumpedState).foldl (transferStep (-1)) bumpedState = _
    rw [show GameState.getActiveConnections bumpedState = [(⟨"a", "b", 16⟩ : Connection)]
      from hconn]
    rfl
  have hstep : transferStep (-1) bumpedState ⟨"a", "b", 16⟩ =
      { bumpedState with
        spheres := replaceById bumpedState.spheres "b"
          { spB with energy := spB.energy + effectiveRate 16 * (-1),
                     attackingOwner := some "player" },
        stats := { bumpedState.stats with
          energyTransferred := bumpedState.stats.energyTransferred + effectiveRate 16 * (-1) } } := by
    rw [transferStep_eq hsrcB htgtB, stepCore_progress (by decide) (by decide) rfl
      (by norm_num [spB, effectiveRate, BASE_ENERGY_RATE, ATTENUATION_FACTOR])]
    rfl
  refine ⟨?_, ?_, ?_⟩
  · rw [update_gameTime]
    norm_num [twoSphereState]
  · rw [update_tick]
    rfl
  · rw [h0, hstep]
    have hfind : (replaceById bumpedState.spheres "b"
        { spB with energy := spB.energy + effectiveRate 16 * (-1),
                   attackingOwner := some "player" }).find? (fun s => s.id == "b") =
        some { spB with energy := spB.energy + effectiveRate 16 * (-1),
                        attackingOwner := some "player" } :=
      find?_replaceById_self _ htgtB rfl
    show Option.map Sphere.energy ((replaceById bumpedState.spheres "b"
        { spB with energy := spB.energy + effectiveRate 16 * (-1),
                   attackingOwner := some "player" }).find? (fun s => s.id == "b")) = _
    rw [hfind]
    norm_num [spB, effectiveRate, BASE_ENERGY_RATE, ATTENUATION_FACTOR]

/-- C6 amended: `update` performs no validation of `deltaTime`; a call
with negative deltaTime is silently accepted, adding the (negative)
deltaTime to `gameTime` and incrementing the tick as for any other
call. -/
theorem C6_negative_dt_amended (st : GameState) (dt : ℚ) (_hdt : dt < 0) :
    (st.update dt).gameTime = st.gameTime + dt ∧ (st.update dt).tick = st.tick + 1 :=
  ⟨update_gameTime st dt, update_tick st dt⟩

/-- Witness for the amended C6 at the lone-sphere state and dt = -1. -/
theorem C6_negative_dt_witness :
    (-1:ℚ) < 0 ∧ ((loneState.update (-1)).gameTime = loneState.gameTime + (-1) ∧
      (loneState.update (-1)).tick = loneState.tick + 1) :=
  ⟨by norm_num, C6_negative_dt_amended loneState (-1) (by norm_num)⟩

/-- Case split on the sphere list produced by one transfer step: either
untouched, or one in-place replacement at the target's id. -/
theorem stepCore_spheres_cases (dt : ℚ) (st : GameState) (c : Connection)
    (source target : Sphere) (htgt : st.getSphere c.targetId = some target) :
    (stepCore dt st c source target).1 = st.spheres ∨
    ∃ v, v.id = c.targetId ∧
      (stepCore dt st c source target).1 = replaceById st.spheres c.targetId v := by
  unfold stepCore
  by_cases h1 : source.owner = "neutral"
  · rw [if_pos h1]; left; rfl
  · rw [if_neg h1]
    by_cases h2 : source.owner = target.owner
    · rw [if_pos h2]; right
      refine ⟨_, ?_, rfl⟩
      simpa using getSphere_id htgt
    · rw [if_neg h2]
      by_cases h3 : target.owner = "neutral"
      · rw [if_pos h3]
        by_cases h4 : 100 ≤ target.energy + effectiveRate c.distSq * dt
        · rw [if_pos h4]; right
          refine ⟨_, ?_, rfl⟩
          simpa using getSphere_id htgt
        · rw [if_neg h4]; right
          refine ⟨_, ?_, rfl⟩
          simpa using getSphere_id htgt
      · rw [if_neg h3]
        by_cases h4 : target.energy - effectiveRate c.distSq * dt ≤ 0
        · rw [if_pos h4]; right
          refine ⟨_, ?_, rfl⟩
          simpa using getSphere_id htgt
        · rw [if_neg h4]; right
          refine ⟨_, ?_, rfl⟩
          simpa using getSphere_id htgt

theorem getSphere_transferStep_ne {dt : ℚ} {st : GameState} {c : Connection} {sid : String}
    (hne : ¬ c.targetId = sid) :
    (transferStep dt st c).getSphere sid = st.getSphere sid := by
  cases hsrc : st.getSphere c.sourceId with
  | none =>
    show (stepPair dt st c).1.find? (fun s => s.id == sid) = _
    unfold stepPair
    rw [hsrc]
    rfl
  | some source =>
    cases htgt : st.getSphere c.targetId with
    | none =>
      show (stepPair dt st c).1.find? (fun s => s.id == sid) = _
      unfold stepPair
      rw [hsrc, htgt]
      rfl
    | some target =>
      rw [transferStep_eq hsrc htgt]
      show (stepCore dt st c source target).1.find? (fun s => s.id == sid) = _
      rcases stepCore_spheres_cases dt st c source target htgt with h | ⟨v, hv, h⟩
      · rw [h]
        rfl
      · rw [h]
        exact find?_replaceById_ne v hne hv

theorem foldl_getSphere_ne {dt : ℚ} {sid : String} (cs : List Connection)
    (h : ∀ c ∈ cs, ¬ c.targetId = sid) (st : GameState) :
    (cs.foldl (transferStep dt) st).getSphere sid = st.getSphere sid := by
  induction cs generalizing st with
  | nil => rfl
  | cons c cs ih =>
    rw [List.foldl_cons, ih (fun x hx => h x (List.mem_cons_of_mem _ hx)),
      getSphere_transferStep_ne (h c (List.mem_cons_self _ _))]

/-! ## Remaining claim theorems -/

/-- C3: during update, for a connection whose source is non-neutral and
whose target is neutral, if the target's energy reaches at least 100
under the transfer of that connection's processing step, then that step
clamps the target's energy to exactly 100, makes the target's owner the
source's owner, clears `attackingOwner`, and increments the
`spheresCaptured` counter exactly when the new owner is `player`. -/
theorem C3_capture_semantics (st : GameState) (c : Connection) (dt : ℚ)
    (source target : Sphere)
    (hsrc : st.getSphere c.sourceId = some source)
    (htgt : st.getSphere c.targetId = some target)
    (hso : ¬ source.owner = "neutral")
    (hto : target.owner = "neutral")
    (hcap : 100 ≤ target.energy + effectiveRate c.distSq * dt) :
    (transferStep dt st c).getSphere c.targetId =
      some { target with energy := 100, owner := source.owner, attackingOwner := none } ∧
    (transferStep dt st c).stats.spheresCaptured =
      st.stats.spheresCaptured + (if source.owner = "player" then 1 else 0) := by
  have h2 : ¬ source.owner = target.owner := fun h => hso (h.trans hto)
  rw [transferStep_eq hsrc htgt, stepCore_capture hso h2 hto hcap]
  constructor
  · show (replaceById st.spheres c.targetId
      { target with energy := 100, owner := source.owner, attackingOwner := none }).find?
        (fun s => s.id == c.targetId) = _
    exact find?_replaceById_self
      { target with energy := 100, owner := source.owner, attackingOwner := none } htgt
      (by simpa using getSphere_id htgt)
  · rfl

/-- Witness for C3: the player sphere captures the neutral sphere of the
two-sphere scenario in one 8-second step. -/
theorem C3_capture_witness :
    twoSphereState.getSphere "a" = some spA ∧
    twoSphereState.getSphere "b" = some spB ∧
    ¬ spA.owner = "neutral" ∧ spB.owner = "neutral" ∧
    100 ≤ spB.energy + effectiveRate (16:ℚ) * 8 ∧
    ((transferStep 8 twoSphereState ⟨"a", "b", 16⟩).getSphere "b" =
      some { spB with energy := 100, owner := spA.owner, attackingOwner := none } ∧
     (transferStep 8 twoSphereState ⟨"a", "b", 16⟩).stats.spheresCaptured =
      twoSphereState.stats.spheresCaptured + (if spA.owner = "player" then 1 else 0)) :=
  ⟨by decide, by decide, by decide, rfl,
   by norm_num [spB, effectiveRate, BASE_ENERGY_RATE, ATTENUATION_FACTOR],
   C3_capture_semantics twoSphereState ⟨"a", "b", 16⟩ 8 spA spB (by decide) (by decide)
     (by decide) rfl
     (by norm_num [spB, effectiveRate, BASE_ENERGY_RATE, ATTENUATION_FACTOR])⟩

/-- C4: during update, for a connection whose source and target have
different non-neutral owners, if the target's energy reaches at most 0
under that connection's processing step, then that step clamps the
target's energy to exactly 0, makes the target's owner `neutral` (never
the attacker's owner directly), and clears `attackingOwner`. -/
theorem C4_reversion_semantics (st : GameState) (c : Connection) (dt : ℚ)
    (source target : Sphere)
    (hsrc : st.getSphere c.sourceId = some source)
    (htgt : st.getSphere c.targetId = some target)
    (hso : ¬ source.owner = "neutral")
    (hto : ¬ target.owner = "neutral")
    (hdiff : ¬ source.owner = target.owner)
    (hrev : target.energy - effectiveRate c.distSq * dt ≤ 0) :
    (transferStep dt st c).getSphere c.targetId =
      some { target with energy := 0, owner := "neutral", attackingOwner := none } := by
  rw [transferStep_eq hsrc htgt, stepCore_revert hso hdiff hto hrev]
  show (replaceById st.spheres c.targetId
    { target with energy := 0, owner := "neutral", attackingOwner := none }).find?
      (fun s => s.id == c.targetId) = _
  exact find?_replaceById_self
    { target with energy := 0, owner := "neutral", attackingOwner := none } htgt
    (by simpa using getSphere_id htgt)

/-- Witness for C4: the player sphere drains the enemy sphere to 0 in a
one-second step; the enemy sphere reverts to neutral. -/
theorem C4_reversion_witness :
    attackState.getSphere "a" = some spA ∧
    attackState.getSphere "e" = some spE ∧
    ¬ spA.owner = "neutral" ∧ ¬ spE.owner = "neutral" ∧ ¬ spA.owner = spE.owner ∧
    spE.energy - effectiveRate (1:ℚ) * 1 ≤ 0 ∧
    (transferStep 1 attackState ⟨"a", "e", 1⟩).getSphere "e" =
      some { spE with energy := 0, owner := "neutral", attackingOwner := none } :=
  ⟨by decide, by decide, by decide, by decide, by decide,
   by norm_num [spE, effectiveRate, BASE_ENERGY_RATE, ATTENUATION_FACTOR],
   C4_reversion_semantics attackState ⟨"a", "e", 1⟩ 1 spA spE (by decide) (by decide)
     (by decide) (by decide) (by decide)
     (by norm_num [spE, effectiveRate, BASE_ENERGY_RATE, ATTENUATION_FACTOR])⟩

/-- C5: `createConnection(s, t)` fails and leaves the state unchanged
whenever `s` or `t` does not resolve to a live sphere or `s = t`;
otherwise it succeeds, sets the source's `connectedTo` to `t`
(replacing any previous target), and increments the
`connectionsCreated` counter. -/
theorem C5_connection_validation (st : GameState) (sourceId targetId : String) (now : ℚ) :
    ((st.getSphere sourceId = none ∨ st.getSphere targetId = none ∨ sourceId = targetId) →
      st.createConnection sourceId targetId now = (false, st)) ∧
    (∀ source, st.getSphere sourceId = some source →
      (∃ tgt, st.getSphere targetId = some tgt) → ¬ sourceId = targetId →
      (st.createConnection sourceId targetId now).1 = true ∧
      (st.createConnection sourceId targetId now).2.getSphere sourceId =
        some { source with connectedTo := some targetId, lastTransferTime := now } ∧
      (st.createConnection sourceId targetId now).2.stats.connectionsCreated =
        st.stats.connectionsCreated + 1) := by
  constructor
  · intro h
    unfold GameState.createConnection
    rcases hs : st.getSphere sourceId with _ | source
    · rfl
    · rcases ht : st.getSphere targetId with _ | tgt
      · rfl
      · rcases h with h | h | h
        · rw [hs] at h; exact absurd h (by simp)
        · rw [ht] at h; exact absurd h (by simp)
        · dsimp only
          rw [if_pos h]
  · rintro source hs ⟨tgt, ht⟩ hne
    unfold GameState.createConnection
    rw [hs, ht]
    dsimp only
    rw [if_neg hne]
    refine ⟨rfl, ?_, rfl⟩
    show (replaceById st.spheres sourceId (source.connect (some targetId) now)).find?
      (fun s => s.id == sourceId) = _
    exact find?_replaceById_self (source.connect (some targetId) now) hs
      (by simpa using getSphere_id hs)

/-- Witness for C5: the self-connection `("a","a")` is rejected without
state change, and the valid connection `("a","b")` succeeds. -/
theorem C5_connection_witness :
    twoSphereState.createConnection "a" "a" 0 = (false, twoSphereState) ∧
    ((twoSphereState.createConnection "a" "b" 5).1 = true ∧
     (twoSphereState.createConnection "a" "b" 5).2.getSphere "a" =
       some { spA with connectedTo := some "b", lastTransferTime := 5 } ∧
     (twoSphereState.createConnection "a" "b" 5).2.stats.connectionsCreated =
       twoSphereState.stats.connectionsCreated + 1) :=
  ⟨(C5_connection_validation twoSphereState "a" "a" 0).1 (Or.inr (Or.inr rfl)),
   (C5_connection_validation twoSphereState "a" "b" 5).2 spA (by decide)
     ⟨spB, by decide⟩ (by decide)⟩

/-- C7 counterexample: selecting the player sphere `"a"` and then
removing it leaves `selectedSphereId = some "a"` although no live
sphere with that id exists any more, so the selection invariant is not
maintained by `removeSphere`. -/
theorem C7_selection_cex :
    ((loneState.selectSphere "a").removeSphere "a").selectedSphereId = some "a" ∧
    ((loneState.selectSphere "a").removeSphere "a").getSphere "a" = none := by
  decide

/-- C7 amended: the invariant is enforced only at selection time —
`selectSphere` either leaves the selection unchanged or sets it to an id
that resolves to a live player-owned sphere; `removeSphere` and `update`
do not re-check or clear the selection afterwards. -/
theorem C7_selection_amended (st : GameState) (sphereId : String) :
    (st.selectSphere sphereId).selectedSphereId = st.selectedSphereId ∨
    ((st.selectSphere sphereId).selectedSphereId = some sphereId ∧
      ∃ s, st.getSphere sphereId = some s ∧ s.owner = "player") := by
  by_cases hp : st.isPlayerSphere sphereId = true
  · right
    refine ⟨by simp [GameState.selectSphere, hp], ?_⟩
    unfold GameState.isPlayerSphere at hp
    rcases h : st.getSphere sphereId with _ | s
    · rw [h] at hp; simp at hp
    · rw [h] at hp
      exact ⟨s, rfl, by simpa using hp⟩
  · left
    simp [GameState.selectSphere, hp]

/-- C10: `update` never mutates a sphere through its role as a
connection source: a sphere that is not the target of any active
connection keeps its energy, owner, attackingOwner, and connectedTo
unchanged across the call. -/
theorem C10_source_frame (st : GameState) (dt : ℚ) (sid : String)
    (h : ∀ c ∈ st.getActiveConnections, ¬ c.targetId = sid) :
    ((st.update dt).getSphere sid).map
        (fun s => (s.energy, s.owner, s.attackingOwner, s.connectedTo)) =
      (st.getSphere sid).map
        (fun s => (s.energy, s.owner, s.attackingOwner, s.connectedTo)) := by
  have key : (st.update dt).getSphere sid = st.getSphere sid := by
    unfold GameState.update GameState.processEnergyTransfer
    exact foldl_getSphere_ne _ h _
  rw [key]

/-- Witness for C10 at the lone-sphere state (no connections at all). -/
theorem C10_source_frame_witness :
    (∀ c ∈ loneState.getActiveConnections, ¬ c.targetId = "a") ∧
    ((loneState.update 1).getSphere "a").map
        (fun s => (s.energy, s.owner, s.attackingOwner, s.connectedTo)) =
      (loneState.getSphere "a").map
        (fun s => (s.energy, s.owner, s.attackingOwner, s.connectedTo)) :=
  ⟨by decide, C10_source_frame loneState 1 "a" (by decide)⟩

/-! ## Round-trip serialization (C1) -/

theorem addSphereList_fresh {l : List Sphere} {v : Sphere}
    (h : ∀ a ∈ l, ¬ a.id = v.id) : addSphereList l v = l ++ [v] := by
  induction l with
  | nil => rfl
  | cons a as ih =>
    rw [show addSphereList (a :: as) v =
        (if a.id = v.id then v :: as else a :: addSphereList as v) from rfl,
      if_neg (h a (List.mem_cons_self _ _)),
      ih (fun x hx => h x (List.mem_cons_of_mem _ hx))]
    rfl

theorem foldl_addSphereList_fresh (ds : List Sphere) :
    ∀ acc : List Sphere, (∀ s ∈ ds, ∀ a ∈ acc, ¬ a.id = s.id) →
      (ds.map Sphere.id).Nodup → ds.foldl addSphereList acc = acc ++ ds := by
  induction ds with
  | nil =>
    intro acc _ _
    simp
  | cons d ds ih =>
    intro acc hfresh hnodup
    rw [List.map_cons, List.nodup_cons] at hnodup
    rw [List.foldl_cons, addSphereList_fresh (hfresh d (List.mem_cons_self _ _))]
    have hf : ∀ s ∈ ds, ∀ a ∈ acc ++ [d], ¬ a.id = s.id := by
      intro s hs a ha
      rcases List.mem_append.mp ha with ha | ha
      · exact hfresh s (List.mem_cons_of_mem _ hs) a ha
      · have had : a = d := by simpa using ha
        subst had
        intro hid
        exact hnodup.1 (by rw [hid]; exact List.mem_map_of_mem Sphere.id hs)
    rw [ih (acc ++ [d]) hf hnodup.2]
    simp

theorem fromJSON_fold_spheres (ds : List SphereJSON) (st : GameState) :
    (ds.foldl (fun acc sd => acc.addSphere (Sphere.fromJSON sd)) st).spheres =
      ds.foldl (fun l sd => addSphereList l (Sphere.fromJSON sd)) st.spheres := by
  induction ds generalizing st with
  | nil => rfl
  | cons d ds ih =>
    rw [List.foldl_cons, List.foldl_cons, ih]
    rfl

theorem roundtrip_spheres (st : GameState)
    (hids : (st.spheres.map Sphere.id).Nodup) :
    (GameState.fromJSON (GameState.toJSON st)).spheres =
      st.spheres.map (fun s => Sphere.fromJSON (Sphere.toJSON s)) := by
  show (((GameState.toJSON st).spheres).foldl
    (fun acc sd => acc.addSphere (Sphere.fromJSON sd)) GameState.init).spheres = _
  rw [fromJSON_fold_spheres]
  show (st.spheres.map Sphere.toJSON).foldl
    (fun l sd => addSphereList l (Sphere.fromJSON sd)) [] = _
  rw [List.foldl_map]
  rw [← List.foldl_map (fun s => Sphere.fromJSON (Sphere.toJSON s)) addSphereList
    st.spheres []]
  have hnd : ((st.spheres.map (fun s => Sphere.fromJSON (Sphere.toJSON s))).map
      Sphere.id).Nodup := by
    rw [List.map_map]
    exact hids
  rw [foldl_addSphereList_fresh (st.spheres.map (fun s => Sphere.fromJSON (Sphere.toJSON s)))
    [] (by intro s _ a ha; simp at ha) hnd]
  simp

/-- C1: for every GameState whose sphere ids are distinct (as the JS
`Map` keys are) and whose attacker tags are genuine (never the empty
string, which the simulation cannot produce and which the source's
`data.attackingOwner || null` restore would coalesce to `null`),
`fromJSON(toJSON(state))` reproduces the full aggregate losslessly:
every sphere's id, position, owner, energy, connectedTo, and
attackingOwner, plus the selected sphere id, tick, gameTime, gameMode,
and stats are identical to those of the original state. -/
theorem C1_roundtrip_lossless (st : GameState)
    (hids : (st.spheres.map Sphere.id).Nodup)
    (hao : ∀ s ∈ st.spheres, ¬ s.attackingOwner = some "") :
    (GameState.fromJSON (GameState.toJSON st)).spheres.map
        (fun s => (s.id, s.position, s.owner, s.energy, s.connectedTo, s.attackingOwner)) =
      st.spheres.map
        (fun s => (s.id, s.position, s.owner, s.energy, s.connectedTo, s.attackingOwner)) ∧
    (GameState.fromJSON (GameState.toJSON st)).selectedSphereId = st.selectedSphereId ∧
    (GameState.fromJSON (GameState.toJSON st)).tick = st.tick ∧
    (GameState.fromJSON (GameState.toJSON st)).gameTime = st.gameTime ∧
    (GameState.fromJSON (GameState.toJSON st)).gameMode = st.gameMode ∧
    (GameState.fromJSON (GameState.toJSON st)).stats = st.stats := by
  refine ⟨?_, rfl, rfl, rfl, rfl, rfl⟩
  rw [roundtrip_spheres st hids, List.map_map]
  apply List.map_congr_left
  intro s hs
  simp [Function.comp, Sphere.fromJSON, Sphere.toJSON, Sphere.mk', hao s hs]

/-- Witness for C1 at the contested state, whose sphere carries
`attackingOwner = some "enemy"` across the round-trip. -/
theorem C1_roundtrip_lossless_witness :
    (contestedState.spheres.map Sphere.id).Nodup ∧
    (∀ s ∈ contestedState.spheres, ¬ s.attackingOwner = some "") ∧
    (GameState.fromJSON (GameState.toJSON contestedState)).spheres.map
        (fun s => (s.id, s.position, s.owner, s.energy, s.connectedTo, s.attackingOwner)) =
      contestedState.spheres.map
        (fun s => (s.id, s.position, s.owner, s.energy, s.connectedTo, s.attackingOwner)) :=
  ⟨by decide, by decide,
   (C1_roundtrip_lossless contestedState (by decide) (by decide)).1⟩

end Pyramids
